import Mathlib

/- Shallow embedding of the fsbuilder project-finance engine.

   Conventions of the embedding: all currency-like values and rates are exact
   rationals (the source uses IEEE doubles; every claim checked here either
   holds exactly or fails by amounts far beyond float error), year indices are
   integers where the source subtracts them and naturals where they only count,
   and loops become structural recursions on an explicit counter. -/

/-- Depreciation methods recognised by the engine
(`'straight_line' | 'declining_balance' | 'none'` in the source). -/
inductive DepreciationMethod where
  | straight_line
  | declining_balance
  | none
deriving DecidableEq, Repr

/-- Embeds `straightLineDepreciation` (depreciation.ts): zero when the useful
life is non-positive, otherwise `(cost - salvageValue) / usefulLife`. -/
def straightLineDepreciation (cost salvageValue : ℚ) (usefulLife : ℤ) : ℚ :=
  if usefulLife ≤ 0 then 0 else (cost - salvageValue) / (usefulLife : ℚ)

/-- Book-value iteration inside `decliningBalanceDepreciation`: each step
subtracts `bookValue * depRate`; when the result drops to the salvage value or
below, it is clamped there and the iteration stops (the `break` in the source). -/
def declineLoop (depRate salvageValue : ℚ) : ℕ → ℚ → ℚ
  | 0, bookValue => bookValue
  | n + 1, bookValue =>
      let next := bookValue - bookValue * depRate
      if next ≤ salvageValue then salvageValue else declineLoop depRate salvageValue n next

/-- Embeds `decliningBalanceDepreciation` (depreciation.ts). `year` is 1-based
relative to purchase; the book value is iterated `year - 1` steps from `cost`,
then the charge is `min (bookValue * rate) (bookValue - salvageValue)`, or 0 once
the book value has reached the salvage value. -/
def decliningBalanceDepreciation (cost salvageValue rate : ℚ) (year usefulLife : ℤ) : ℚ :=
  if year > usefulLife then 0
  else
    let depreciationRate := rate / 100
    let bookValue := declineLoop depreciationRate salvageValue (year - 1).toNat cost
    if bookValue ≤ salvageValue then 0
    else min (bookValue * depreciationRate) (bookValue - salvageValue)

/-- Embeds `calculateDepreciation` (depreciation.ts): dispatches on the method
after the window guard `yearsSincePurchase < 0 ∨ yearsSincePurchase ≥ usefulLife`. -/
def calculateDepreciation (cost salvageValue : ℚ) (usefulLife : ℤ) (depreciationRate : ℚ)
    (method : DepreciationMethod) (year purchaseYear : ℤ) : ℚ :=
  let yearsSincePurchase := year - purchaseYear
  if yearsSincePurchase < 0 ∨ yearsSincePurchase ≥ usefulLife then 0
  else
    match method with
    | .straight_line => straightLineDepreciation cost salvageValue usefulLife
    | .declining_balance =>
        decliningBalanceDepreciation cost salvageValue depreciationRate
          (yearsSincePurchase + 1) usefulLife
    | .none => 0

/-- Embeds `calculateAccumulatedDepreciation` (depreciation.ts): sums the annual
charges for `purchaseYear .. currentYear` and clamps at `cost - salvageValue`. -/
def calculateAccumulatedDepreciation (cost salvageValue : ℚ) (usefulLife : ℤ)
    (depreciationRate : ℚ) (method : DepreciationMethod) (currentYear purchaseYear : ℤ) : ℚ :=
  let accumulated :=
    ((List.range (currentYear - purchaseYear + 1).toNat).map fun i : ℕ =>
      calculateDepreciation cost salvageValue usefulLife depreciationRate method
        (purchaseYear + (i : ℤ)) purchaseYear).sum
  min accumulated (cost - salvageValue)

/-- One row of a loan amortisation schedule (`AmortizationSchedule` in the source). -/
structure AmortizationRow where
  year : ℕ
  beginningBalance : ℚ
  payment : ℚ
  principal : ℚ
  interest : ℚ
  endingBalance : ℚ
deriving DecidableEq, Repr

/-- The loop body of `calculateAmortizationSchedule`: builds `n` rows starting at
`year`, carrying the (unclamped) balance; the stored `endingBalance` is clamped
at 0 exactly as `Math.max(0, endingBalance)` in the source. -/
def amortRows (rate principalPayment : ℚ) (gracePeriod : ℕ) :
    ℕ → ℕ → ℚ → List AmortizationRow
  | 0, _, _ => []
  | n + 1, year, balance =>
      let interestPayment := balance * rate
      let principalPaid := if year > gracePeriod then principalPayment else 0
      let endingBalance := balance - principalPaid
      { year := year
        beginningBalance := balance
        payment := principalPaid + interestPayment
        principal := principalPaid
        interest := interestPayment
        endingBalance := max 0 endingBalance } ::
        amortRows rate principalPayment gracePeriod n (year + 1) endingBalance

/-- Embeds `calculateAmortizationSchedule` (financing.ts): equal-principal
schedule of length `termYears` with `principalPayment = principal / (termYears - gracePeriod)`. -/
def calculateAmortizationSchedule (principal annualRate : ℚ) (termYears gracePeriod : ℕ) :
    List AmortizationRow :=
  amortRows (annualRate / 100) (principal / ((termYears : ℚ) - (gracePeriod : ℚ)))
    gracePeriod termYears 1 principal

/-- Number of rows with a non-zero principal payment among `n` schedule rows
starting at `year`, i.e. the count of `i < n` with `year + i > gracePeriod`. -/
def countPaid (gracePeriod : ℕ) : ℕ → ℕ → ℕ
  | _, 0 => 0
  | year, n + 1 => (if year > gracePeriod then 1 else 0) + countPaid gracePeriod (year + 1) n

lemma countPaid_of_gt (gracePeriod : ℕ) :
    ∀ n year, gracePeriod < year → countPaid gracePeriod year n = n := by
  intro n
  induction n with
  | zero => intro year _; rfl
  | succ m ih =>
      intro year hy
      simp only [countPaid, if_pos hy, ih (year + 1) (Nat.lt_succ_of_lt hy)]
      omega

lemma countPaid_eq_sub (gracePeriod : ℕ) :
    ∀ d n year, year + d = gracePeriod + 1 → d ≤ n →
      countPaid gracePeriod year n = n - d := by
  intro d
  induction d with
  | zero =>
      intro n year hy _
      have : gracePeriod < year := by omega
      simpa using countPaid_of_gt gracePeriod n year this
  | succ e ih =>
      intro n year hy hdn
      obtain ⟨m, rfl⟩ : ∃ m, n = m + 1 := ⟨n - 1, by omega⟩
      have hng : ¬ year > gracePeriod := by omega
      simp only [countPaid, if_neg hng]
      have := ih m (year + 1) (by omega) (by omega)
      omega

lemma amortRows_principal_sum (rate principalPayment : ℚ) (gracePeriod : ℕ) :
    ∀ n year balance,
      ((amortRows rate principalPayment gracePeriod n year balance).map
        (fun row => row.principal)).sum =
      (countPaid gracePeriod year n : ℚ) * principalPayment := by
  intro n
  induction n with
  | zero => intro year balance; simp [amortRows, countPaid]
  | succ m ih =>
      intro year balance
      simp only [amortRows, List.map_cons, List.sum_cons, ih, countPaid]
      push_cast
      by_cases h : year > gracePeriod
      · simp [h]; ring
      · simp [h]

lemma amortRows_length (rate principalPayment : ℚ) (gracePeriod : ℕ) :
    ∀ n year balance,
      (amortRows rate principalPayment gracePeriod n year balance).length = n := by
  intro n
  induction n with
  | zero => intro year balance; rfl
  | succ m ih => intro year balance; simp [amortRows, ih]

lemma amortRows_last_endingBalance (rate principalPayment : ℚ) (gracePeriod : ℕ) :
    ∀ n year balance, 0 < n →
      ((amortRows rate principalPayment gracePeriod n year balance).map
        (fun row => row.endingBalance)).getLast? =
      some (max 0 (balance - (countPaid gracePeriod year n : ℚ) * principalPayment)) := by
  intro n
  induction n with
  | zero => intro year balance h; exact absurd h (lt_irrefl 0)
  | succ m ih =>
      intro year balance _
      match m, ih with
      | 0, _ =>
          simp only [amortRows, List.map_cons, List.map_nil, List.getLast?_singleton,
            countPaid, Option.some.injEq]
          by_cases h : year > gracePeriod <;> simp [h]
      | k + 1, ih =>
          have step := ih (year + 1) (balance - (if year > gracePeriod then principalPayment else 0))
            (Nat.succ_pos k)
          simp only [amortRows, List.map_cons] at step ⊢
          rw [List.getLast?_cons_cons, step]
          congr 1
          simp only [countPaid]
          push_cast
          by_cases h : year > gracePeriod <;> simp [h] <;> ring_nf

lemma amortRows_principal_zero (rate principalPayment : ℚ) (gracePeriod : ℕ) :
    ∀ n year balance, year + n ≤ gracePeriod + 1 →
      ∀ row ∈ amortRows rate principalPayment gracePeriod n year balance, row.principal = 0 := by
  intro n
  induction n with
  | zero => intro year balance _ row hrow; simp [amortRows] at hrow
  | succ m ih =>
      intro year balance hle row hrow
      simp only [amortRows, List.mem_cons] at hrow
      rcases hrow with rfl | hrow
      · have : ¬ year > gracePeriod := by omega
        simp [this]
      · exact ih (year + 1) _ (by omega) row hrow

/-- C5: for every schedule produced by `calculateAmortizationSchedule` with
`termYears > gracePeriod ≥ 0` and `principal ≥ 0`, the principal column sums to
exactly the principal and the last row's `endingBalance` is 0. -/
theorem amortization_principal_sum_and_final_balance
    (principal annualRate : ℚ) (termYears gracePeriod : ℕ)
    (hP : 0 ≤ principal) (hG : gracePeriod < termYears) :
    ((calculateAmortizationSchedule principal annualRate termYears gracePeriod).map
      (fun row => row.principal)).sum = principal
    ∧ ((calculateAmortizationSchedule principal annualRate termYears gracePeriod).map
      (fun row => row.endingBalance)).getLast? = some 0 := by
  have hcount : countPaid gracePeriod 1 termYears = termYears - gracePeriod :=
    countPaid_eq_sub gracePeriod gracePeriod termYears 1 (by omega) (by omega)
  have hne : ((termYears : ℚ) - (gracePeriod : ℚ)) ≠ 0 := by
    have : (gracePeriod : ℚ) < (termYears : ℚ) := by exact_mod_cast hG
    exact sub_ne_zero.mpr (ne_of_gt this)
  have hmul : ((termYears - gracePeriod : ℕ) : ℚ) *
      (principal / ((termYears : ℚ) - (gracePeriod : ℚ))) = principal := by
    rw [Nat.cast_sub (Nat.le_of_lt hG)]
    rw [mul_div_assoc']
    rw [mul_comm]
    rw [mul_div_assoc]
    rw [div_self hne, mul_one]
  constructor
  · rw [calculateAmortizationSchedule, amortRows_principal_sum, hcount, hmul]
  · rw [calculateAmortizationSchedule,
      amortRows_last_endingBalance _ _ _ termYears 1 principal (by omega), hcount, hmul]
    simp

/-- Witness for C5 at the spec's S4/S5 loan: principal 100000, rate 10, term 5,
grace 2. -/
theorem amortization_principal_sum_and_final_balance_witness :
    ((calculateAmortizationSchedule 100000 10 5 2).map (fun row => row.principal)).sum = 100000
    ∧ ((calculateAmortizationSchedule 100000 10 5 2).map
      (fun row => row.endingBalance)).getLast? = some 0 :=
  amortization_principal_sum_and_final_balance 100000 10 5 2 (by norm_num) (by norm_num)

/-- C8: `calculateAmortizationSchedule` with `termYears = 0` returns the empty
schedule, and with `0 < termYears ≤ gracePeriod` returns `termYears` rows whose
principal column is identically 0 (the loan never leaves grace). -/
theorem amortization_degenerate_terms (principal annualRate : ℚ) (termYears gracePeriod : ℕ) :
    calculateAmortizationSchedule principal annualRate 0 gracePeriod = []
    ∧ (0 < termYears → termYears ≤ gracePeriod →
        (calculateAmortizationSchedule principal annualRate termYears gracePeriod).length =
          termYears
        ∧ ∀ row ∈ calculateAmortizationSchedule principal annualRate termYears gracePeriod,
            row.principal = 0) := by
  refine ⟨rfl, fun _ hTG => ⟨amortRows_length _ _ _ _ _ _, ?_⟩⟩
  exact amortRows_principal_zero _ _ gracePeriod termYears 1 principal (by omega)

/-- Witness for C8: a 2-year loan entirely inside a 5-year grace period, plus the
empty schedule for a zero term. -/
theorem amortization_degenerate_terms_witness :
    calculateAmortizationSchedule 50 7 0 5 = []
    ∧ (calculateAmortizationSchedule 50 7 2 5).length = 2
    ∧ ∀ row ∈ calculateAmortizationSchedule 50 7 2 5, row.principal = 0 :=
  ⟨(amortization_degenerate_terms 50 7 2 5).1,
    ((amortization_degenerate_terms 50 7 2 5).2 (by norm_num) (by norm_num)).1,
    ((amortization_degenerate_terms 50 7 2 5).2 (by norm_num) (by norm_num)).2⟩

lemma declineLoop_le_salvage (depRate salvageValue : ℚ) :
    ∀ n bookValue, 0 ≤ bookValue → bookValue ≤ salvageValue →
      0 ≤ depRate → depRate ≤ 1 →
      declineLoop depRate salvageValue n bookValue ≤ salvageValue := by
  intro n
  induction n with
  | zero => intro bookValue _ hbs _ _; exact hbs
  | succ m _ =>
      intro bookValue hb0 hbs hr0 hr1
      have hnext : bookValue - bookValue * depRate ≤ salvageValue :=
        le_trans (by nlinarith) hbs
      simp [declineLoop, hnext]

lemma calculateDepreciation_nonneg (cost salvageValue : ℚ) (usefulLife : ℤ)
    (depreciationRate : ℚ) (method : DepreciationMethod) (year purchaseYear : ℤ)
    (h0 : 0 ≤ salvageValue) (h1 : salvageValue ≤ cost) (h2 : 0 ≤ depreciationRate) :
    0 ≤ calculateDepreciation cost salvageValue usefulLife depreciationRate
        method year purchaseYear := by
  rw [calculateDepreciation.eq_def]
  by_cases hguard : year - purchaseYear < 0 ∨ year - purchaseYear ≥ usefulLife
  · rw [if_pos hguard]
  · rw [if_neg hguard]
    push_neg at hguard
    obtain ⟨hge, hlt⟩ := hguard
    cases method with
    | straight_line =>
        rw [straightLineDepreciation]
        have hL : ¬ usefulLife ≤ 0 := by omega
        have hLpos : (0 : ℚ) < (usefulLife : ℚ) := by exact_mod_cast (by omega : 0 < usefulLife)
        rw [if_neg hL]
        exact div_nonneg (sub_nonneg.mpr h1) (le_of_lt hLpos)
    | declining_balance =>
        rw [decliningBalanceDepreciation]
        by_cases hy : year - purchaseYear + 1 > usefulLife
        · rw [if_pos hy]
        · rw [if_neg hy]
          simp only
          set bookValue := declineLoop (depreciationRate / 100) salvageValue
            (year - purchaseYear + 1 - 1).toNat cost with hbv
          by_cases hbs : bookValue ≤ salvageValue
          · rw [if_pos hbs]
          · rw [if_neg hbs]
            push_neg at hbs
            have hbpos : 0 ≤ bookValue := le_trans h0 (le_of_lt hbs)
            exact le_min (mul_nonneg hbpos (by positivity))
              (sub_nonneg.mpr (le_of_lt hbs))
    | none => exact le_refl 0

lemma sum_map_range_mono (f : ℕ → ℚ) (hf : ∀ i, 0 ≤ f i) :
    ∀ n m, n ≤ m → ((List.range n).map f).sum ≤ ((List.range m).map f).sum := by
  intro n m
  induction m with
  | zero =>
      intro h
      have : n = 0 := Nat.le_zero.mp h
      subst this
      exact le_refl _
  | succ k ih =>
      intro hnm
      by_cases hn : n = k + 1
      · subst hn; exact le_refl _
      · have hk : n ≤ k := by omega
        calc ((List.range n).map f).sum ≤ ((List.range k).map f).sum := ih hk
          _ ≤ ((List.range (k + 1)).map f).sum := by
              simp [List.range_succ, hf k]

/-- C9: with `0 ≤ salvageValue ≤ cost` and a non-negative depreciation rate (the
data-model invariants on an asset), `calculateAccumulatedDepreciation` is
monotonically non-decreasing in the query year and bounded by `cost - salvageValue`. -/
theorem accumulated_depreciation_monotone_and_bounded
    (cost salvageValue : ℚ) (usefulLife : ℤ) (depreciationRate : ℚ)
    (method : DepreciationMethod) (purchaseYear y1 y2 : ℤ)
    (h0 : 0 ≤ salvageValue) (h1 : salvageValue ≤ cost) (h2 : 0 ≤ depreciationRate)
    (h12 : y1 ≤ y2) :
    calculateAccumulatedDepreciation cost salvageValue usefulLife depreciationRate
        method y1 purchaseYear
      ≤ calculateAccumulatedDepreciation cost salvageValue usefulLife depreciationRate
        method y2 purchaseYear
    ∧ calculateAccumulatedDepreciation cost salvageValue usefulLife depreciationRate
        method y2 purchaseYear ≤ cost - salvageValue := by
  constructor
  · simp only [calculateAccumulatedDepreciation]
    refine min_le_min ?_ (le_refl _)
    refine sum_map_range_mono _
      (fun i => calculateDepreciation_nonneg _ _ _ _ _ _ _ h0 h1 h2) _ _ ?_
    omega
  · simp only [calculateAccumulatedDepreciation]
    exact min_le_right _ _

/-- Witness for C9 at the spec's S3 asset (cost 10000, salvage 1000, straight
line, purchased year 1), comparing query years 5 and 20. -/
theorem accumulated_depreciation_monotone_and_bounded_witness :
    calculateAccumulatedDepreciation 10000 1000 10 10 .straight_line 5 1
      ≤ calculateAccumulatedDepreciation 10000 1000 10 10 .straight_line 20 1
    ∧ calculateAccumulatedDepreciation 10000 1000 10 10 .straight_line 20 1 ≤ 10000 - 1000 :=
  accumulated_depreciation_monotone_and_bounded 10000 1000 10 10 .straight_line 1 5 20
    (by norm_num) (by norm_num) (by norm_num) (by norm_num)

/-- Counterexample to C7: with `cost = 100 < salvageValue = 200`, the
straight-line charge in the purchase year is `(100 - 200) / 10 = -10`, not 0. -/
theorem depreciation_cost_below_salvage_counterexample :
    calculateDepreciation 100 200 10 10 .straight_line 1 0 = -10
    ∧ calculateDepreciation 100 200 10 10 .straight_line 1 0 ≠ 0 := by
  norm_num [calculateDepreciation, straightLineDepreciation]

/-- C7 as amended: `usefulLife = 0` yields 0 under every method; the method
`none` always yields 0; `cost ≤ salvageValue` yields 0 under `declining_balance`
for data-model-valid inputs (`0 ≤ cost`, rate in [0,100]); under `straight_line`
the charge is 0 when `cost = salvageValue` (but negative when `cost < salvageValue`). -/
theorem depreciation_edge_cases_amended (cost salvageValue depreciationRate : ℚ)
    (usefulLife year purchaseYear : ℤ) (method : DepreciationMethod) :
    (usefulLife = 0 →
      calculateDepreciation cost salvageValue usefulLife depreciationRate method
        year purchaseYear = 0)
    ∧ (cost ≤ salvageValue → 0 ≤ cost → 0 ≤ depreciationRate → depreciationRate ≤ 100 →
        calculateDepreciation cost salvageValue usefulLife depreciationRate
          .declining_balance year purchaseYear = 0)
    ∧ calculateDepreciation cost salvageValue usefulLife depreciationRate
        .none year purchaseYear = 0
    ∧ (cost = salvageValue →
        calculateDepreciation cost salvageValue usefulLife depreciationRate
          .straight_line year purchaseYear = 0) := by
  refine ⟨?_, ?_, ?_, ?_⟩
  · intro hL
    subst hL
    rw [calculateDepreciation.eq_def]
    have : year - purchaseYear < 0 ∨ year - purchaseYear ≥ 0 := by omega
    rw [if_pos this]
  · intro hcs hc0 hr0 hr100
    rw [calculateDepreciation.eq_def]
    by_cases hguard : year - purchaseYear < 0 ∨ year - purchaseYear ≥ usefulLife
    · rw [if_pos hguard]
    · rw [if_neg hguard]
      push_neg at hguard
      rw [decliningBalanceDepreciation]
      by_cases hy : year - purchaseYear + 1 > usefulLife
      · rw [if_pos hy]
      · rw [if_neg hy]
        simp only
        have hloop : declineLoop (depreciationRate / 100) salvageValue
            (year - purchaseYear + 1 - 1).toNat cost ≤ salvageValue :=
          declineLoop_le_salvage _ _ _ cost hc0 hcs (by positivity) (by linarith)
        rw [if_pos hloop]
  · rw [calculateDepreciation.eq_def]
    by_cases hguard : year - purchaseYear < 0 ∨ year - purchaseYear ≥ usefulLife
    · rw [if_pos hguard]
    · rw [if_neg hguard]
  · intro hce
    rw [calculateDepreciation.eq_def]
    by_cases hguard : year - purchaseYear < 0 ∨ year - purchaseYear ≥ usefulLife
    · rw [if_pos hguard]
    · rw [if_neg hguard]
      rw [straightLineDepreciation, hce]
      by_cases hL : usefulLife ≤ 0
      · rw [if_pos hL]
      · rw [if_neg hL]
        rw [sub_self, zero_div]

/-- Witness for the amended C7, covering all four conjuncts at concrete inputs. -/
theorem depreciation_edge_cases_amended_witness :
    calculateDepreciation 100 200 0 50 .straight_line 3 0 = 0
    ∧ calculateDepreciation 100 200 3 50 .declining_balance 1 0 = 0
    ∧ calculateDepreciation 100 200 3 50 .none 1 0 = 0
    ∧ calculateDepreciation 5 5 3 50 .straight_line 1 0 = 0 :=
  ⟨(depreciation_edge_cases_amended 100 200 50 0 3 0 .straight_line).1 rfl,
    (depreciation_edge_cases_amended 100 200 50 3 1 0 .straight_line).2.1
      (by norm_num) (by norm_num) (by norm_num) (by norm_num),
    (depreciation_edge_cases_amended 100 200 50 3 1 0 .straight_line).2.2.1,
    (depreciation_edge_cases_amended 5 5 50 3 1 0 .straight_line).2.2.2 rfl⟩

/-- `ProjectData` of projections.ts. The `startDate` field is carried but never
consulted by any computation; it is modelled as an integer timestamp. -/
structure ProjectData where
  constructionYears : ℕ
  operationYears : ℕ
  discountRate : ℚ
  inflationRate : ℚ
  taxRate : ℚ
  startDate : ℤ
deriving DecidableEq, Repr

/-- One row of a product's production schedule (`{ year, quantity }`). -/
structure ScheduleEntry where
  year : ℕ
  quantity : ℚ
deriving DecidableEq, Repr

/-- `InvestmentData` of projections.ts. -/
structure InvestmentData where
  category : String
  amount : ℚ
  year : ℕ
  usefulLife : ℕ
  salvageValue : ℚ
  depreciationMethod : DepreciationMethod
  depreciationRate : ℚ
deriving DecidableEq, Repr

/-- `ProductData` of projections.ts. -/
structure ProductData where
  name : String
  unitPrice : ℚ
  priceEscalation : ℚ
  productionSchedule : List ScheduleEntry
deriving DecidableEq, Repr

/-- Cost types (`'fixed' | 'variable'`); the source's `variable` is a Lean
keyword and is rendered as `variableCost`. -/
inductive CostType where
  | fixed
  | variableCost
deriving DecidableEq, Repr

/-- `CostData` of projections.ts. -/
structure CostData where
  category : String
  costType : CostType
  amount : ℚ
  unitCost : ℚ
  escalationRate : ℚ
  startYear : ℕ
deriving DecidableEq, Repr

/-- `FinancingData` of projections.ts. -/
structure FinancingData where
  type : String
  amount : ℚ
  interestRate : ℚ
  termYears : ℕ
  gracePeriod : ℕ
  disbursementYear : ℕ
  repaymentStartYear : ℕ
deriving DecidableEq, Repr

/-- Return value of `calculateDebtService` (financing.ts). -/
structure DebtService where
  principal : ℚ
  interest : ℚ
  total : ℚ
deriving DecidableEq, Repr

/-- Per-item contribution inside the loop of `calculateDebtService`: a loan
contributes the principal and interest of its schedule row at index
`year - repaymentStartYear` when that index is in range; everything else is 0. -/
def debtServiceItem (item : FinancingData) (year : ℕ) : ℚ × ℚ :=
  if item.type ≠ "loan" then (0, 0)
  else
    let schedule := calculateAmortizationSchedule item.amount item.interestRate
      item.termYears item.gracePeriod
    let yearIndex : ℤ := (year : ℤ) - (item.repaymentStartYear : ℤ)
    if 0 ≤ yearIndex ∧ yearIndex < (schedule.length : ℤ) then
      match schedule[yearIndex.toNat]? with
      | some row => (row.principal, row.interest)
      | Option.none => (0, 0)
    else (0, 0)

/-- Embeds `calculateDebtService` (financing.ts): sums loan principal and
interest due in the given absolute year across all financing items. -/
def calculateDebtService (financingItems : List FinancingData) (year : ℕ) : DebtService :=
  let totalPrincipal := (financingItems.map fun item => (debtServiceItem item year).1).sum
  let totalInterest := (financingItems.map fun item => (debtServiceItem item year).2).sum
  { principal := totalPrincipal
    interest := totalInterest
    total := totalPrincipal + totalInterest }

/-- Revenue for an absolute year in `generateCashFlows` / `generateIncomeStatements`:
zero during construction, otherwise the sum over products of
`quantity * unitPrice * (1 + priceEscalation/100) ^ (operatingYear - 1)` for the
schedule row matching the operating year. -/
def revenueAt (project : ProjectData) (products : List ProductData) (year : ℕ) : ℚ :=
  if year > project.constructionYears then
    let operatingYear := year - project.constructionYears
    (products.map fun product =>
      match product.productionSchedule.find? (fun s => s.year == operatingYear) with
      | some schedule =>
          schedule.quantity * (product.unitPrice *
            (1 + product.priceEscalation / 100) ^ (operatingYear - 1))
      | Option.none => 0).sum
  else 0

/-- The escalated annual amount a single cost contributes in a given operating
year (zero before its `startYear`). -/
def escalatedCostAt (cost : CostData) (operatingYear : ℕ) : ℚ :=
  if cost.startYear ≤ operatingYear then
    cost.amount * (1 + cost.escalationRate / 100) ^ (operatingYear - cost.startYear)
  else 0

/-- Total operating costs for an absolute year in `generateCashFlows`. -/
def operatingCostsAt (project : ProjectData) (costs : List CostData) (year : ℕ) : ℚ :=
  if year > project.constructionYears then
    (costs.map fun cost => escalatedCostAt cost (year - project.constructionYears)).sum
  else 0

/-- Capital outflow for a year: investments with `inv.year == year`. -/
def investmentsAt (investments : List InvestmentData) (year : ℕ) : ℚ :=
  ((investments.filter fun inv => inv.year == year).map fun inv => inv.amount).sum

/-- Financing inflows for a year: items with `disbursementYear == year`. -/
def financingInflowsAt (financing : List FinancingData) (year : ℕ) : ℚ :=
  ((financing.filter fun f => f.disbursementYear == year).map fun f => f.amount).sum

/-- Total depreciation charge for a year across non-land, non-working-capital
investments, as computed in the loops of projections.ts. -/
def depreciationAt (investments : List InvestmentData) (year : ℕ) : ℚ :=
  (investments.map fun inv =>
    if inv.category ≠ "land" ∧ inv.category ≠ "working_capital" then
      calculateDepreciation inv.amount inv.salvageValue (inv.usefulLife : ℤ)
        inv.depreciationRate inv.depreciationMethod (year : ℤ) (inv.year : ℤ)
    else 0).sum

/-- `CashFlowYear` of the output bundle. -/
structure CashFlowYear where
  year : ℕ
  operatingInflow : ℚ
  operatingOutflow : ℚ
  investingOutflow : ℚ
  financingInflow : ℚ
  financingOutflow : ℚ
  netCashFlow : ℚ
  cumulativeCashFlow : ℚ
  discountedCashFlow : ℚ
deriving DecidableEq, Repr

/-- Loop body of `generateCashFlows` (projections.ts) for one absolute year,
given the cumulative cash flow carried from earlier years. -/
def cashFlowRowAt (project : ProjectData) (investments : List InvestmentData)
    (products : List ProductData) (costs : List CostData) (financing : List FinancingData)
    (year : ℕ) (cumulative : ℚ) : CashFlowYear :=
  let revenue := revenueAt project products year
  let operatingCosts := operatingCostsAt project costs year
  let yearInvestments := investmentsAt investments year
  let financingInflows := financingInflowsAt financing year
  let debtService := calculateDebtService financing year
  let depreciation := depreciationAt investments year
  let taxableIncome := revenue - operatingCosts - depreciation - debtService.interest
  let taxes := if taxableIncome > 0 then taxableIncome * (project.taxRate / 100) else 0
  let operatingInflow := revenue
  let operatingOutflow := operatingCosts + taxes
  let investingOutflow := yearInvestments
  let financingInflow := financingInflows
  let financingOutflow := debtService.principal + debtService.interest
  let netCashFlow := operatingInflow - operatingOutflow - investingOutflow +
    financingInflow - financingOutflow
  { year := year
    operatingInflow := operatingInflow
    operatingOutflow := operatingOutflow
    investingOutflow := investingOutflow
    financingInflow := financingInflow
    financingOutflow := financingOutflow
    netCashFlow := netCashFlow
    cumulativeCashFlow := cumulative + netCashFlow
    discountedCashFlow := netCashFlow / (1 + project.discountRate / 100) ^ year }

/-- The year loop of `generateCashFlows`: `n` rows starting at `year`, threading
the cumulative cash flow. -/
def cashFlowRows (project : ProjectData) (investments : List InvestmentData)
    (products : List ProductData) (costs : List CostData) (financing : List FinancingData) :
    ℕ → ℕ → ℚ → List CashFlowYear
  | 0, _, _ => []
  | n + 1, year, cumulative =>
      let row := cashFlowRowAt project investments products costs financing year cumulative
      row :: cashFlowRows project investments products costs financing n (year + 1)
        row.cumulativeCashFlow

/-- Embeds `generateCashFlows` (projections.ts): one row per absolute year
`0 .. constructionYears + operationYears`. -/
def generateCashFlows (project : ProjectData) (investments : List InvestmentData)
    (products : List ProductData) (costs : List CostData) (financing : List FinancingData) :
    List CashFlowYear :=
  cashFlowRows project investments products costs financing
    (project.constructionYears + project.operationYears + 1) 0 0

/-- `IncomeStatementYear` of the output bundle. -/
structure IncomeStatementYear where
  year : ℕ
  revenue : ℚ
  costOfGoodsSold : ℚ
  grossProfit : ℚ
  operatingExpenses : ℚ
  depreciation : ℚ
  operatingIncome : ℚ
  interestExpense : ℚ
  taxableIncome : ℚ
  taxes : ℚ
  netIncome : ℚ
deriving DecidableEq, Repr

/-- Loop body of `generateIncomeStatements` (projections.ts): a zeroed row for
construction years, otherwise revenue, the variable/fixed cost split,
depreciation, interest, taxes (only on positive taxable income) and net income. -/
def incomeStatementAt (project : ProjectData) (investments : List InvestmentData)
    (products : List ProductData) (costs : List CostData) (financing : List FinancingData)
    (year : ℕ) : IncomeStatementYear :=
  if year ≤ project.constructionYears then
    { year := year, revenue := 0, costOfGoodsSold := 0, grossProfit := 0
      operatingExpenses := 0, depreciation := 0, operatingIncome := 0
      interestExpense := 0, taxableIncome := 0, taxes := 0, netIncome := 0 }
  else
    let operatingYear := year - project.constructionYears
    let revenue := revenueAt project products year
    let cogs := ((costs.filter fun c => c.costType == CostType.variableCost).map
      fun c => escalatedCostAt c operatingYear).sum
    let operatingExpenses := ((costs.filter fun c => c.costType == CostType.fixed).map
      fun c => escalatedCostAt c operatingYear).sum
    let depreciation := depreciationAt investments year
    let grossProfit := revenue - cogs
    let operatingIncome := grossProfit - operatingExpenses - depreciation
    let interestExpense := (calculateDebtService financing year).interest
    let taxableIncome := operatingIncome - interestExpense
    let taxes := if taxableIncome > 0 then taxableIncome * (project.taxRate / 100) else 0
    { year := year
      revenue := revenue
      costOfGoodsSold := cogs
      grossProfit := grossProfit
      operatingExpenses := operatingExpenses
      depreciation := depreciation
      operatingIncome := operatingIncome
      interestExpense := interestExpense
      taxableIncome := taxableIncome
      taxes := taxes
      netIncome := taxableIncome - taxes }

/-- Embeds `generateIncomeStatements` (projections.ts): rows for years
`1 .. constructionYears + operationYears`. -/
def generateIncomeStatements (project : ProjectData) (investments : List InvestmentData)
    (products : List ProductData) (costs : List CostData) (financing : List FinancingData) :
    List IncomeStatementYear :=
  (List.range (project.constructionYears + project.operationYears)).map fun i =>
    incomeStatementAt project investments products costs financing (i + 1)

/-- `BalanceSheetYear` of the output bundle. -/
structure BalanceSheetYear where
  year : ℕ
  cash : ℚ
  receivables : ℚ
  inventory : ℚ
  currentAssets : ℚ
  fixedAssets : ℚ
  accumulatedDepreciation : ℚ
  netFixedAssets : ℚ
  totalAssets : ℚ
  payables : ℚ
  currentLiabilities : ℚ
  longTermDebt : ℚ
  totalLiabilities : ℚ
  shareCapital : ℚ
  retainedEarnings : ℚ
  totalEquity : ℚ
deriving DecidableEq, Repr

/-- Cumulative cost of non-working-capital investments made up to `year`. -/
def fixedAssetsAt (investments : List InvestmentData) (year : ℕ) : ℚ :=
  ((investments.filter fun inv =>
    inv.year ≤ year ∧ inv.category ≠ "working_capital").map fun inv => inv.amount).sum

/-- Accumulated depreciation through `year` across depreciable investments,
as computed in `generateBalanceSheets`. -/
def accumulatedDepreciationAt (investments : List InvestmentData) (year : ℕ) : ℚ :=
  (investments.map fun inv =>
    if inv.year ≤ year ∧ inv.category ≠ "land" ∧ inv.category ≠ "working_capital" then
      calculateAccumulatedDepreciation inv.amount inv.salvageValue (inv.usefulLife : ℤ)
        inv.depreciationRate inv.depreciationMethod (year : ℤ) (inv.year : ℤ)
    else 0).sum

/-- Cumulative working-capital investment up to `year`. -/
def workingCapitalAt (investments : List InvestmentData) (year : ℕ) : ℚ :=
  ((investments.filter fun inv =>
    inv.year ≤ year ∧ inv.category = "working_capital").map fun inv => inv.amount).sum

/-- Remaining loan principal on the books at `year`, as computed in
`generateBalanceSheets`: full amount before repayment starts, declining by one
equal principal payment per post-grace year while inside the term, 0 after. -/
def longTermDebtAt (financing : List FinancingData) (year : ℕ) : ℚ :=
  (financing.map fun f =>
    if f.type = "loan" then
      let yearsSinceStart : ℤ := (year : ℤ) - (f.repaymentStartYear : ℤ)
      if yearsSinceStart < 0 then f.amount
      else if yearsSinceStart < (f.termYears : ℤ) then
        let principalPayment := f.amount / ((f.termYears : ℚ) - (f.gracePeriod : ℚ))
        let principalPaid :=
          ((max 0 (yearsSinceStart - (f.gracePeriod : ℤ)) : ℤ) : ℚ) * principalPayment
        max 0 (f.amount - principalPaid)
      else 0
    else 0).sum

/-- Cumulative equity disbursed up to `year`. -/
def shareCapitalAt (financing : List FinancingData) (year : ℕ) : ℚ :=
  ((financing.filter fun f =>
    f.type = "equity" ∧ f.disbursementYear ≤ year).map fun f => f.amount).sum

/-- The year loop of `generateBalanceSheets` (projections.ts): `n` rows starting
at `year`, threading retained earnings and the cash balance. The cash update is
the source's `cash = totalAssets - netFixedAssets - receivables - inventory`
(with `totalAssets` built from the carried cash) followed by the clamp at 0;
the pushed row recomputes `currentAssets` and `totalAssets` from the new cash. -/
def balanceSheetRows (project : ProjectData) (investments : List InvestmentData)
    (products : List ProductData) (costs : List CostData) (financing : List FinancingData)
    (incomeStatements : List IncomeStatementYear) :
    ℕ → ℕ → ℚ → ℚ → List BalanceSheetYear
  | 0, _, _, _ => []
  | n + 1, year, retainedEarnings, cash =>
      let fixedAssets := fixedAssetsAt investments year
      let accumulatedDepreciation := accumulatedDepreciationAt investments year
      let netFixedAssets := fixedAssets - accumulatedDepreciation
      let workingCapital := workingCapitalAt investments year
      let receivables : ℚ := 0
      let inventory := workingCapital * 0.6
      let currentAssets := cash + receivables + inventory
      let totalAssets := currentAssets + netFixedAssets
      let payables : ℚ := 0
      let currentLiabilities := payables
      let longTermDebt := longTermDebtAt financing year
      let totalLiabilities := currentLiabilities + longTermDebt
      let shareCapital := shareCapitalAt financing year
      let retainedNew :=
        match incomeStatements.find? (fun statement => statement.year == year) with
        | some yearIncome => retainedEarnings + yearIncome.netIncome
        | Option.none => retainedEarnings
      let totalEquity := shareCapital + retainedNew
      let cashPlugged := totalAssets - netFixedAssets - receivables - inventory
      let cashNew := if cashPlugged < 0 then 0 else cashPlugged
      { year := year
        cash := cashNew
        receivables := receivables
        inventory := inventory
        currentAssets := cashNew + receivables + inventory
        fixedAssets := fixedAssets
        accumulatedDepreciation := accumulatedDepreciation
        netFixedAssets := netFixedAssets
        totalAssets := (cashNew + receivables + inventory) + netFixedAssets
        payables := payables
        currentLiabilities := currentLiabilities
        longTermDebt := longTermDebt
        totalLiabilities := totalLiabilities
        shareCapital := shareCapital
        retainedEarnings := retainedNew
        totalEquity := totalEquity } ::
      balanceSheetRows project investments products costs financing incomeStatements
        n (year + 1) retainedNew cashNew

/-- Embeds `generateBalanceSheets` (projections.ts): one row per absolute year
`0 .. constructionYears + operationYears`, with retained earnings and cash both
starting at 0. The `products` and `costs` parameters are accepted but unused,
exactly as in the source. -/
def generateBalanceSheets (project : ProjectData) (investments : List InvestmentData)
    (products : List ProductData) (costs : List CostData) (financing : List FinancingData)
    (incomeStatements : List IncomeStatementYear) : List BalanceSheetYear :=
  balanceSheetRows project investments products costs financing incomeStatements
    (project.constructionYears + project.operationYears + 1) 0 0 0

/-- Embeds `calculateNPV` (indicators.ts): `Σ_t CF_t / (1 + rate/100)^t`. -/
def calculateNPV (cashFlows : List ℚ) (discountRate : ℚ) : ℚ :=
  let rate := discountRate / 100
  ((cashFlows.enum).map fun p => p.2 / (1 + rate) ^ p.1).sum

/-- The NPV recomputed inside each Newton iteration of `calculateIRR`
(`rate` here is a fraction, not a percent). -/
def irrNpvAt (cashFlows : List ℚ) (rate : ℚ) : ℚ :=
  ((cashFlows.enum).map fun p => p.2 / (1 + rate) ^ p.1).sum

/-- The NPV derivative accumulated inside each Newton iteration of
`calculateIRR`: `-Σ_{t>0} t·CF_t / (1 + rate)^(t+1)`. -/
def irrDerivativeAt (cashFlows : List ℚ) (rate : ℚ) : ℚ :=
  ((cashFlows.enum).map fun p =>
    if 0 < p.1 then -((p.1 : ℚ) * p.2 / (1 + rate) ^ (p.1 + 1)) else 0).sum

/-- The Newton-Raphson loop of `calculateIRR` (indicators.ts), with explicit
fuel for the iteration cap. The boolean records how the loop exited: `true`
only through the tolerance test `|newRate - rate| < 0.0001`; breaking on the
derivative guard `|NPV'| < 1e-10` or exhausting the cap leaves it `false`,
and in both of those cases the source still returns the current rate. -/
def irrLoop (cashFlows : List ℚ) : ℕ → ℚ → ℚ × Bool
  | 0, rate => (rate, false)
  | n + 1, rate =>
      let npv := irrNpvAt cashFlows rate
      let npvDerivative := irrDerivativeAt cashFlows rate
      if |npvDerivative| < 1 / 10 ^ 10 then (rate, false)
      else
        let newRate := rate - npv / npvDerivative
        if |newRate - rate| < 1 / 10 ^ 4 then (newRate, true)
        else irrLoop cashFlows n newRate

/-- Embeds `calculateIRR` (indicators.ts) at its default guess 0.1 (no caller
overrides the guess): 100 Newton-Raphson iterations, result returned as a
percent whether or not the iteration converged. -/
def calculateIRR (cashFlows : List ℚ) : ℚ :=
  (irrLoop cashFlows 100 (1 / 10)).1 * 100

/-- Whether the Newton-Raphson loop of `calculateIRR` exited through its
convergence test rather than the derivative guard or the iteration cap. -/
def irrConverged (cashFlows : List ℚ) : Bool :=
  (irrLoop cashFlows 100 (1 / 10)).2

/-- Embeds `calculateBenefitCostRatio` (indicators.ts): 0 when the cost is 0,
otherwise benefits over the absolute value of costs. -/
def calculateBCR (presentValueBenefits presentValueCosts : ℚ) : ℚ :=
  if presentValueCosts = 0 then 0 else presentValueBenefits / |presentValueCosts|

/-- The `pvBenefits` computation inside `calculateAllIndicators` (indicators.ts):
`cashFlows.slice(1).filter(cf => cf > 0).reduce((sum, cf, t) => sum + cf / (1+r)^(t+1), 0)`.
Note the exponent uses the index `t` within the filtered list, not the year. -/
def bundlePvBenefits (cashFlows : List ℚ) (discountRate : ℚ) : ℚ :=
  ((((cashFlows.drop 1).filter fun cf => 0 < cf).enum).map fun p =>
    p.2 / (1 + discountRate / 100) ^ (p.1 + 1)).sum

/-- The `pvCosts` computation inside `calculateAllIndicators` (indicators.ts):
`|cashFlows[0]|` plus the later negative flows, each discounted at its index
within the filtered list plus one. -/
def bundlePvCosts (cashFlows : List ℚ) (discountRate : ℚ) : ℚ :=
  |cashFlows.headD 0| +
    ((((cashFlows.drop 1).filter fun cf => cf < 0).enum).map fun p =>
      |p.2| / (1 + discountRate / 100) ^ (p.1 + 1)).sum

/-- The benefit-cost ratio field produced by `calculateAllIndicators`. -/
def bundleBCR (cashFlows : List ℚ) (discountRate : ℚ) : ℚ :=
  calculateBCR (bundlePvBenefits cashFlows discountRate)
    (bundlePvCosts cashFlows discountRate)

/-- `ProjectInputs` of sensitivity.ts. -/
structure ProjectInputs where
  revenue : List ℚ
  operatingCosts : List ℚ
  investmentCost : ℚ
  discountRate : ℚ
  cashFlows : List ℚ
deriving DecidableEq, Repr

/-- `SensitivityResult`; the source field `variable` is a Lean keyword and is
rendered as `varName`. -/
structure SensitivityResult where
  varName : String
  variation : ℚ
  npv : ℚ
  irr : ℚ
deriving DecidableEq, Repr

/-- Embeds `applyVariation` (sensitivity.ts): scales the field selected by the
variable name by `1 + variation/100`; unknown names leave the inputs unchanged. -/
def applyVariation (inputs : ProjectInputs) (varName : String) (variation : ℚ) :
    ProjectInputs :=
  let factor := 1 + variation / 100
  if varName = "revenue" ∨ varName = "price" ∨ varName = "sales" then
    { inputs with revenue := inputs.revenue.map fun r => r * factor }
  else if varName = "operatingCosts" ∨ varName = "costs" then
    { inputs with operatingCosts := inputs.operatingCosts.map fun c => c * factor }
  else if varName = "investment" ∨ varName = "investmentCost" then
    { inputs with investmentCost := inputs.investmentCost * factor }
  else if varName = "discountRate" then
    { inputs with discountRate := inputs.discountRate * factor }
  else inputs

/-- Embeds `recalculateCashFlows` (sensitivity.ts): year 0 is the negated total
investment, later years are `revenue[i] - operatingCosts[i]` over the indices of
the revenue list (an out-of-range cost reads as 0 in this model; all call sites
keep both lists the same length). -/
def recalculateCashFlows (inputs : ProjectInputs) : List ℚ :=
  -inputs.investmentCost ::
    (List.range inputs.revenue.length).map fun i =>
      inputs.revenue.getD i 0 - inputs.operatingCosts.getD i 0

/-- Embeds `calculateSensitivity` (sensitivity.ts): for each variable and each
variation, apply the variation, rebuild the simplified cash-flow series, and
record its NPV and IRR. -/
def calculateSensitivity (baseInputs : ProjectInputs) (varNames : List String)
    (variations : List ℚ) : List SensitivityResult :=
  varNames.bind fun varName =>
    variations.map fun variation =>
      let modifiedInputs := applyVariation baseInputs varName variation
      let modifiedCashFlows := recalculateCashFlows modifiedInputs
      { varName := varName
        variation := variation
        npv := calculateNPV modifiedCashFlows modifiedInputs.discountRate
        irr := calculateIRR modifiedCashFlows }

/-- One row of the tornado chart data. -/
structure TornadoRow where
  varName : String
  lowNPV : ℚ
  baseNPV : ℚ
  highNPV : ℚ
  impact : ℚ
deriving DecidableEq, Repr

/-- The comparison `(a, b) => a.variation - b.variation` used to sort each
variable's results ascending by variation. -/
def varLe (a b : SensitivityResult) : Prop := a.variation ≤ b.variation

instance : DecidableRel varLe := fun a b =>
  inferInstanceAs (Decidable (a.variation ≤ b.variation))

instance : IsTotal SensitivityResult varLe :=
  ⟨fun a b => le_total a.variation b.variation⟩

instance : IsTrans SensitivityResult varLe :=
  ⟨fun _ _ _ h1 h2 => le_trans h1 h2⟩

/-- The comparison `(a, b) => b.impact - a.impact` used to sort tornado rows
descending by impact. -/
def impactGe (a b : TornadoRow) : Prop := b.impact ≤ a.impact

instance : DecidableRel impactGe := fun a b =>
  inferInstanceAs (Decidable (b.impact ≤ a.impact))

instance : IsTotal TornadoRow impactGe :=
  ⟨fun a b => Or.symm (le_total a.impact b.impact)⟩

instance : IsTrans TornadoRow impactGe :=
  ⟨fun _ _ _ h1 h2 => le_trans h2 h1⟩

/-- The per-variable body of `generateTornadoData`: sort the group ascending by
variation, read the low/high NPV off the two ends, find the variation-0 row,
and emit a row only when all three exist (the source's `if (baseResult &&
lowResult && highResult)`). -/
def tornadoRowFor (varName : String) (results : List SensitivityResult) :
    Option TornadoRow :=
  let sorted := List.insertionSort varLe results
  match sorted.head?, sorted.getLast?, sorted.find? (fun r => r.variation == 0) with
  | some lowResult, some highResult, some baseResult =>
      some { varName := varName
             lowNPV := lowResult.npv
             baseNPV := baseResult.npv
             highNPV := highResult.npv
             impact := |highResult.npv - lowResult.npv| }
  | _, _, _ => Option.none

/-- The grouping order of `generateTornadoData`: JavaScript `Map` iteration
follows first insertion, i.e. first occurrence of each variable name. -/
def tornadoVars (results : List SensitivityResult) : List String :=
  results.foldl (fun acc r => if r.varName ∈ acc then acc else acc ++ [r.varName]) []

/-- Embeds `generateTornadoData` (sensitivity.ts): group by variable in first
occurrence order, build each variable's row, sort descending by impact. -/
def generateTornadoData (sensitivityResults : List SensitivityResult) :
    List TornadoRow :=
  List.insertionSort impactGe
    ((tornadoVars sensitivityResults).filterMap fun varName =>
      tornadoRowFor varName (sensitivityResults.filter fun r => r.varName == varName))

lemma cash_plug_identity (cash receivables inventory netFixedAssets : ℚ) :
    ((cash + receivables + inventory) + netFixedAssets) - netFixedAssets -
      receivables - inventory = cash := by
  ring

lemma balanceSheetRows_cash_zero (project : ProjectData) (investments : List InvestmentData)
    (products : List ProductData) (costs : List CostData) (financing : List FinancingData)
    (incomeStatements : List IncomeStatementYear) :
    ∀ n year retained,
      ((balanceSheetRows project investments products costs financing incomeStatements
        n year retained 0).map fun b => b.cash) = List.replicate n 0 := by
  intro n
  induction n with
  | zero => intro year retained; rfl
  | succ m ih =>
      intro year retained
      rw [balanceSheetRows]
      simp only [List.map_cons, cash_plug_identity, if_neg (lt_irrefl (0 : ℚ))]
      rw [List.replicate_succ]
      refine congrArg (List.cons 0) ?_
      exact ih (year + 1) _

/-- C10: in every balance-sheet series produced by `generateBalanceSheets`, the
reported `cash` field is 0 in every year: the plug assignment
`cash = totalAssets - netFixedAssets - receivables - inventory` cancels back to
the carried cash (initially 0), so the plug never moves. -/
theorem balance_sheet_cash_always_zero (project : ProjectData)
    (investments : List InvestmentData) (products : List ProductData)
    (costs : List CostData) (financing : List FinancingData)
    (incomeStatements : List IncomeStatementYear) :
    ((generateBalanceSheets project investments products costs financing
      incomeStatements).map fun b => b.cash) =
    List.replicate (project.constructionYears + project.operationYears + 1) 0 :=
  balanceSheetRows_cash_zero project investments products costs financing incomeStatements
    (project.constructionYears + project.operationYears + 1) 0 0

/-- A minimal project used to exhibit the broken balance-sheet identity: no
construction year, one operating year, a single equity contribution of 1000
disbursed in year 0, and nothing else. -/
def exampleEquityProject : ProjectData :=
  { constructionYears := 0, operationYears := 1, discountRate := 10
    inflationRate := 0, taxRate := 0, startDate := 0 }

/-- The single equity financing item of the example project. -/
def exampleEquity : FinancingData :=
  { type := "equity", amount := 1000, interestRate := 0, termYears := 0
    gracePeriod := 0, disbursementYear := 0, repaymentStartYear := 1 }

/-- C1 is violated by the code: on the equity-only example project the balance
sheet reports `totalAssets = 0` but `totalLiabilities + totalEquity = 1000` in
both years, so `|totalAssets - (totalLiabilities + totalEquity)| = 1000`, far
beyond the claimed `1e-6 * max 1 totalAssets` tolerance. -/
theorem balance_sheet_identity_violated :
    ((generateBalanceSheets exampleEquityProject [] [] [] [exampleEquity]
      (generateIncomeStatements exampleEquityProject [] [] [] [exampleEquity])).map
        fun b => (b.totalAssets, b.totalLiabilities + b.totalEquity)) =
      [(0, 1000), (0, 1000)]
    ∧ ¬ (|(0 : ℚ) - 1000| < 1 / 1000000 * max 1 (0 : ℚ)) := by
  constructor
  · simp [generateBalanceSheets, balanceSheetRows, generateIncomeStatements,
      incomeStatementAt, revenueAt, escalatedCostAt, depreciationAt, calculateDebtService,
      debtServiceItem, fixedAssetsAt, accumulatedDepreciationAt, workingCapitalAt,
      longTermDebtAt, shareCapitalAt, exampleEquityProject, exampleEquity,
      List.find?, List.filter]
  · norm_num

lemma irrLoop_singleton (c : ℚ) (n : ℕ) (rate : ℚ) :
    irrLoop [c] (n + 1) rate = (rate, false) := by
  have hd : irrDerivativeAt [c] rate = 0 := by
    simp [irrDerivativeAt, List.enum, List.enumFrom]
  rw [irrLoop]
  norm_num [hd]

/-- Counterexample to C2: the one-element series `[100]` makes the NPV
derivative 0, so Newton-Raphson hits the derivative guard on its first
iteration; yet `calculateIRR` does not surface any NOT_CONVERGED condition — it
returns the numeric initial guess as the percentage 10. -/
theorem irr_guard_hit_counterexample :
    irrConverged [(100 : ℚ)] = false ∧ calculateIRR [(100 : ℚ)] = 10 := by
  have h := irrLoop_singleton (100 : ℚ) 99 (1 / 10)
  refine ⟨?_, ?_⟩
  · rw [irrConverged, show (100 : ℕ) = 99 + 1 from rfl, h]
  · rw [calculateIRR, show (100 : ℕ) = 99 + 1 from rfl, h]
    norm_num

/-- C2 as amended: on derivative collapse (and likewise on cap exhaustion)
`calculateIRR` does not report any NOT_CONVERGED/None value — its return type
carries numbers only, and it hands back the current Newton iterate as a
percent. In particular every single-element cash-flow series trips the
derivative guard immediately and `calculateIRR` returns the numeric 10
(the 0.1 initial guess as a percent). -/
theorem irr_guard_returns_numeric_rate (c : ℚ) :
    irrConverged [c] = false ∧ calculateIRR [c] = 10 := by
  have h := irrLoop_singleton c 99 (1 / 10)
  refine ⟨?_, ?_⟩
  · rw [irrConverged, show (100 : ℕ) = 99 + 1 from rfl, h]
  · rw [calculateIRR, show (100 : ℕ) = 99 + 1 from rfl, h]
    norm_num

/-- C6 is violated by the code: in `calculateAllIndicators` the positive flows
are discounted at their index inside the filtered list plus one, not at their
own year. On `cashFlows = [-100, -50, 100]` at a 100 percent discount rate the
year-2 inflow of 100 is discounted one period, giving `pvBenefits = 50` and
`BCR = 50/125 = 2/5`, whereas discounting at its own year (the claim, equal to
`calculateNPV [0, 0, 100] 100`) gives 25 and `BCR = 25/125 = 1/5`. -/
theorem bundle_bcr_filtered_index_discounting :
    bundlePvBenefits [-100, -50, 100] 100 = 50
    ∧ calculateNPV [0, 0, 100] 100 = 25
    ∧ bundlePvCosts [-100, -50, 100] 100 = 125
    ∧ bundleBCR [-100, -50, 100] 100 = 2 / 5 := by
  refine ⟨?_, ?_, ?_, ?_⟩
  · simp [bundlePvBenefits, List.enum, List.enumFrom]
    norm_num
  · simp [calculateNPV, List.enum, List.enumFrom]
    norm_num
  · simp [bundlePvCosts, List.enum, List.enumFrom]
    norm_num
  · simp [bundleBCR, calculateBCR, bundlePvBenefits, bundlePvCosts, List.enum,
      List.enumFrom]
    norm_num

lemma getLast?_mem_list {α : Type} : ∀ (l : List α) (y : α), l.getLast? = some y → y ∈ l := by
  intro l
  induction l with
  | nil => intro y h; simp at h
  | cons a t ih =>
      intro y h
      cases t with
      | nil =>
          simp only [List.getLast?_singleton, Option.some.injEq] at h
          subst h
          exact List.mem_singleton_self a
      | cons b u =>
          rw [List.getLast?_cons_cons] at h
          exact List.mem_cons_of_mem a (ih y h)

lemma head?_mem_list {α : Type} (l : List α) (y : α) (h : l.head? = some y) : y ∈ l := by
  cases l with
  | nil => simp at h
  | cons a t =>
      simp only [List.head?_cons, Option.some.injEq] at h
      subst h
      exact List.mem_cons_self a t

lemma sorted_varLe_head_min (s : List SensitivityResult) (hsort : List.Sorted varLe s)
    (x : SensitivityResult) (hx : x ∈ s) (y : SensitivityResult)
    (hy : s.head? = some y) : varLe y x := by
  cases s with
  | nil => cases hx
  | cons a t =>
      simp only [List.head?_cons, Option.some.injEq] at hy
      subst hy
      rcases List.mem_cons.mp hx with rfl | hx2
      · exact le_refl x.variation
      · exact List.rel_of_sorted_cons hsort x hx2

lemma sorted_varLe_getLast_max :
    ∀ (s : List SensitivityResult), List.Sorted varLe s →
      ∀ x ∈ s, ∀ y, s.getLast? = some y → varLe x y := by
  intro s
  induction s with
  | nil => intro _ x hx; cases hx
  | cons a t ih =>
      intro hsort x hx y hy
      cases t with
      | nil =>
          simp only [List.getLast?_singleton, Option.some.injEq] at hy
          rcases List.mem_singleton.mp hx with rfl
          subst hy
          exact le_refl x.variation
      | cons b u =>
          rw [List.getLast?_cons_cons] at hy
          have hymem : y ∈ b :: u := getLast?_mem_list _ y hy
          rcases List.mem_cons.mp hx with rfl | hx2
          · exact List.rel_of_sorted_cons hsort y hymem
          · exact ih hsort.of_cons x hx2 y hy

/-- The concrete sensitivity results used against C4: one variable whose NPV is
strictly decreasing in the variation. -/
def tornadoExampleResults : List SensitivityResult :=
  [{ varName := "x", variation := -20, npv := 100, irr := 0 },
   { varName := "x", variation := 0, npv := 50, irr := 0 },
   { varName := "x", variation := 20, npv := 0, irr := 0 }]

/-- Counterexample to C4: on a variable whose NPV decreases in the variation,
`generateTornadoData` emits `lowNPV = 100` and `highNPV = 0` (the NPVs at the
lowest and highest variations), while the minimum and maximum NPVs observed are
0 and 100 — so `lowNPV` is not the minimum (the observed NPV 0 lies strictly
below the emitted `lowNPV = 100`) and `highNPV` is not the maximum. -/
theorem tornado_low_high_counterexample :
    generateTornadoData tornadoExampleResults =
      [{ varName := "x", lowNPV := 100, baseNPV := 50, highNPV := 0, impact := 100 }]
    ∧ (0 : ℚ) ∈ tornadoExampleResults.map (fun r => r.npv)
    ∧ (0 : ℚ) < 100 := by
  refine ⟨?_, ?_, by norm_num⟩
  · simp [generateTornadoData, tornadoVars, tornadoRowFor, tornadoExampleResults,
      varLe, impactGe, List.insertionSort, List.orderedInsert]
  · simp [tornadoExampleResults]

/-- C4 as amended: every emitted tornado row has `impact = |highNPV - lowNPV|`
and the rows are sorted descending by impact, but `lowNPV`/`highNPV` are the
NPVs recorded at the variable's lowest/highest variation (the two ends of the
variation-sorted group), not the min/max NPV; `baseNPV` comes from a variation-0
entry, and a variable with no variation-0 entry is dropped. -/
theorem tornado_rows_from_extreme_variations (rs : List SensitivityResult) :
    List.Sorted impactGe (generateTornadoData rs)
    ∧ ∀ row ∈ generateTornadoData rs,
        row.impact = |row.highNPV - row.lowNPV|
        ∧ (∃ lo ∈ rs, lo.varName = row.varName ∧ lo.npv = row.lowNPV
            ∧ ∀ r ∈ rs, r.varName = row.varName → lo.variation ≤ r.variation)
        ∧ (∃ hi ∈ rs, hi.varName = row.varName ∧ hi.npv = row.highNPV
            ∧ ∀ r ∈ rs, r.varName = row.varName → r.variation ≤ hi.variation)
        ∧ (∃ b ∈ rs, b.varName = row.varName ∧ b.variation = 0 ∧ b.npv = row.baseNPV) := by
  constructor
  · exact List.sorted_insertionSort impactGe _
  · intro row hrow
    have hrow2 : row ∈ (tornadoVars rs).filterMap fun varName =>
        tornadoRowFor varName (rs.filter fun r => r.varName == varName) :=
      (List.mem_insertionSort impactGe).mp hrow
    obtain ⟨v, _, hsome⟩ := List.mem_filterMap.mp hrow2
    rw [tornadoRowFor] at hsome
    set g := rs.filter fun r => r.varName == v with hg
    set s := List.insertionSort varLe g with hs
    have hsorted : List.Sorted varLe s := List.sorted_insertionSort varLe g
    have hmem_g : ∀ x ∈ s, x ∈ rs ∧ x.varName = v := by
      intro x hx
      have hxg : x ∈ g := (List.mem_insertionSort varLe).mp hx
      have := List.mem_filter.mp hxg
      exact ⟨this.1, by simpa using this.2⟩
    have hback : ∀ r ∈ rs, r.varName = v → r ∈ s := by
      intro r hr hrv
      refine (List.mem_insertionSort varLe).mpr ?_
      exact List.mem_filter.mpr ⟨hr, by simpa using hrv⟩
    match hhead : s.head?, hlast : s.getLast?, hfind : s.find? (fun r => r.variation == 0) with
    | some lowResult, some highResult, some baseResult =>
        rw [hhead, hlast, hfind] at hsome
        simp only [Option.some.injEq] at hsome
        subst hsome
        have hlow_mem : lowResult ∈ s := head?_mem_list s lowResult hhead
        have hhigh_mem : highResult ∈ s := getLast?_mem_list s highResult hlast
        have hbase_mem : baseResult ∈ s := List.mem_of_find?_eq_some hfind
        refine ⟨by simp, ?_, ?_, ?_⟩
        · refine ⟨lowResult, (hmem_g lowResult hlow_mem).1,
            (hmem_g lowResult hlow_mem).2, rfl, ?_⟩
          intro r hr hrv
          exact sorted_varLe_head_min s hsorted r (hback r hr hrv) lowResult hhead
        · refine ⟨highResult, (hmem_g highResult hhigh_mem).1,
            (hmem_g highResult hhigh_mem).2, rfl, ?_⟩
          intro r hr hrv
          exact sorted_varLe_getLast_max s hsorted r (hback r hr hrv) highResult hlast
        · refine ⟨baseResult, (hmem_g baseResult hbase_mem).1,
            (hmem_g baseResult hbase_mem).2, ?_, rfl⟩
          have := List.find?_some hfind
          simpa using this
    | Option.none, _, _ => rw [hhead] at hsome; simp at hsome
    | some _, Option.none, _ => rw [hhead, hlast] at hsome; simp at hsome
    | some _, some _, Option.none => rw [hhead, hlast, hfind] at hsome; simp at hsome

/-- A one-entry sensitivity result list for exercising the tornado theorem. -/
def tornadoWitnessResults : List SensitivityResult :=
  [{ varName := "x", variation := 0, npv := 5, irr := 1 }]

/-- The row `generateTornadoData` emits for `tornadoWitnessResults`. -/
def tornadoWitnessRow : TornadoRow :=
  { varName := "x", lowNPV := 5, baseNPV := 5, highNPV := 5, impact := 0 }

/-- Witness for the amended C4 on a concrete one-variable result list. -/
theorem tornado_rows_from_extreme_variations_witness :
    tornadoWitnessRow.impact = |tornadoWitnessRow.highNPV - tornadoWitnessRow.lowNPV|
    ∧ (∃ lo ∈ tornadoWitnessResults, lo.varName = tornadoWitnessRow.varName
        ∧ lo.npv = tornadoWitnessRow.lowNPV
        ∧ ∀ r ∈ tornadoWitnessResults, r.varName = tornadoWitnessRow.varName →
            lo.variation ≤ r.variation)
    ∧ (∃ hi ∈ tornadoWitnessResults, hi.varName = tornadoWitnessRow.varName
        ∧ hi.npv = tornadoWitnessRow.highNPV
        ∧ ∀ r ∈ tornadoWitnessResults, r.varName = tornadoWitnessRow.varName →
            r.variation ≤ hi.variation)
    ∧ (∃ b ∈ tornadoWitnessResults, b.varName = tornadoWitnessRow.varName
        ∧ b.variation = 0 ∧ b.npv = tornadoWitnessRow.baseNPV) :=
  (tornado_rows_from_extreme_variations tornadoWitnessResults).2 tornadoWitnessRow (by
    simp [generateTornadoData, tornadoVars, tornadoRowFor, tornadoWitnessResults,
      tornadoWitnessRow, varLe, impactGe, List.insertionSort, List.orderedInsert])

lemma applyVariation_zero (inputs : ProjectInputs) (varName : String) :
    applyVariation inputs varName 0 = inputs := by
  unfold applyVariation
  norm_num

lemma calculateDebtService_nil (year : ℕ) :
    calculateDebtService [] year = { principal := 0, interest := 0, total := 0 + 0 } := rfl

lemma revenueAt_construction (project : ProjectData) (products : List ProductData)
    (year : ℕ) (h : ¬ year > project.constructionYears) :
    revenueAt project products year = 0 := by
  rw [revenueAt, if_neg h]

lemma operatingCostsAt_construction (project : ProjectData) (costs : List CostData)
    (year : ℕ) (h : ¬ year > project.constructionYears) :
    operatingCostsAt project costs year = 0 := by
  rw [operatingCostsAt, if_neg h]

lemma depreciationAt_nonneg (investments : List InvestmentData) (year : ℕ)
    (hvalid : ∀ inv ∈ investments, 0 ≤ inv.salvageValue ∧ inv.salvageValue ≤ inv.amount
      ∧ 0 ≤ inv.depreciationRate) :
    0 ≤ depreciationAt investments year := by
  refine List.sum_nonneg ?_
  intro x hx
  simp only [List.mem_map] at hx
  obtain ⟨inv, hinv, rfl⟩ := hx
  by_cases hc : inv.category ≠ "land" ∧ inv.category ≠ "working_capital"
  · rw [if_pos hc]
    exact calculateDepreciation_nonneg _ _ _ _ _ _ _ (hvalid inv hinv).1
      (hvalid inv hinv).2.1 (hvalid inv hinv).2.2
  · rw [if_neg hc]

lemma investmentsAt_year_zero (investments : List InvestmentData)
    (hyear : ∀ inv ∈ investments, inv.year = 0) :
    investmentsAt investments 0 = (investments.map fun inv => inv.amount).sum := by
  rw [investmentsAt, List.filter_eq_self.mpr]
  intro inv hinv
  simp [hyear inv hinv]

lemma investmentsAt_later_zero (investments : List InvestmentData)
    (hyear : ∀ inv ∈ investments, inv.year = 0) (k : ℕ) :
    investmentsAt investments (k + 1) = 0 := by
  rw [investmentsAt]
  have : investments.filter (fun inv => inv.year == k + 1) = [] := by
    rw [List.filter_eq_nil_iff]
    intro inv hinv
    simp [hyear inv hinv]
  rw [this]
  rfl

lemma getD_map_range (T a : ℕ) (g : ℕ → ℚ) (h : a < T) :
    ((List.range T).map g).getD a 0 = g a := by
  rw [List.getD_eq_getElem?_getD, List.getElem?_map, List.getElem?_range h]
  rfl

lemma cashFlowRows_map_proj (project : ProjectData) (investments : List InvestmentData)
    (products : List ProductData) (costs : List CostData) (financing : List FinancingData)
    (F : CashFlowYear → ℚ)
    (hF : ∀ year c1 c2, F (cashFlowRowAt project investments products costs financing year c1)
      = F (cashFlowRowAt project investments products costs financing year c2)) :
    ∀ n year cumulative,
      ((cashFlowRows project investments products costs financing n year cumulative).map F)
      = (List.range n).map fun k =>
          F (cashFlowRowAt project investments products costs financing (year + k) 0) := by
  intro n
  induction n with
  | zero => intro year cumulative; rfl
  | succ m ih =>
      intro year cumulative
      rw [cashFlowRows, List.map_cons, List.range_succ_eq_map, List.map_cons, List.map_map]
      refine congrArg₂ List.cons ?_ ?_
      · rw [hF year cumulative 0, Nat.add_zero]
      · rw [ih (year + 1) _]
        refine List.map_congr_left ?_
        intro k _
        simp only [Function.comp_apply, Nat.succ_eq_add_one]
        rw [Nat.add_comm k 1, ← Nat.add_assoc]

lemma financingInflowsAt_nil (year : ℕ) : financingInflowsAt [] year = 0 := rfl

lemma debtService_nil_principal (year : ℕ) : (calculateDebtService [] year).principal = 0 := rfl

lemma debtService_nil_interest (year : ℕ) : (calculateDebtService [] year).interest = 0 := rfl

lemma cashFlowRowAt_year_zero_net (project : ProjectData) (investments : List InvestmentData)
    (products : List ProductData) (costs : List CostData)
    (hyear : ∀ inv ∈ investments, inv.year = 0)
    (hvalid : ∀ inv ∈ investments, 0 ≤ inv.salvageValue ∧ inv.salvageValue ≤ inv.amount
      ∧ 0 ≤ inv.depreciationRate) (cumulative : ℚ) :
    (cashFlowRowAt project investments products costs [] 0 cumulative).netCashFlow
      = -(investments.map fun inv => inv.amount).sum := by
  have hdep := depreciationAt_nonneg investments 0 hvalid
  simp only [cashFlowRowAt,
    revenueAt_construction project products 0 (by omega),
    operatingCostsAt_construction project costs 0 (by omega),
    investmentsAt_year_zero investments hyear,
    financingInflowsAt_nil, debtService_nil_principal, debtService_nil_interest]
  rw [if_neg (by linarith : ¬ ((0 : ℚ) - 0 - depreciationAt investments 0 - 0 > 0))]
  ring

lemma cashFlowRowAt_later_net (project : ProjectData) (investments : List InvestmentData)
    (products : List ProductData) (costs : List CostData)
    (hyear : ∀ inv ∈ investments, inv.year = 0) (k : ℕ) (cumulative : ℚ) :
    (cashFlowRowAt project investments products costs [] (k + 1) cumulative).netCashFlow
      = (cashFlowRowAt project investments products costs [] (k + 1) cumulative).operatingInflow
        - (cashFlowRowAt project investments products costs [] (k + 1) cumulative).operatingOutflow := by
  simp only [cashFlowRowAt, investmentsAt_later_zero investments hyear k,
    financingInflowsAt_nil, debtService_nil_principal, debtService_nil_interest]
  ring

lemma generateCashFlows_map_proj (project : ProjectData) (investments : List InvestmentData)
    (products : List ProductData) (costs : List CostData) (financing : List FinancingData)
    (F : CashFlowYear → ℚ)
    (hF : ∀ year c1 c2, F (cashFlowRowAt project investments products costs financing year c1)
      = F (cashFlowRowAt project investments products costs financing year c2)) :
    (generateCashFlows project investments products costs financing).map F
      = (List.range (project.constructionYears + project.operationYears + 1)).map
          fun k => F (cashFlowRowAt project investments products costs financing k 0) := by
  rw [generateCashFlows, cashFlowRows_map_proj project investments products costs financing F hF]
  simp only [Nat.zero_add]

lemma generateCashFlows_drop_one_map (project : ProjectData) (investments : List InvestmentData)
    (products : List ProductData) (costs : List CostData) (financing : List FinancingData)
    (F : CashFlowYear → ℚ)
    (hF : ∀ year c1 c2, F (cashFlowRowAt project investments products costs financing year c1)
      = F (cashFlowRowAt project investments products costs financing year c2)) :
    ((generateCashFlows project investments products costs financing).drop 1).map F
      = (List.range (project.constructionYears + project.operationYears)).map
          fun k => F (cashFlowRowAt project investments products costs financing (k + 1) 0) := by
  rw [List.map_drop, generateCashFlows_map_proj project investments products costs financing F hF,
    List.range_succ_eq_map, List.map_cons, List.drop_succ_cons, List.drop_zero, List.map_map]
  refine List.map_congr_left ?_
  intro k _
  simp [Function.comp, Nat.succ_eq_add_one]

/-- C3 as amended: the sensitivity driver's recorded npv/irr are those of its
own simplified reconstruction, which agrees with the full engine only under
restrictive conditions. Concretely, at variation 0 (any variable name) the
reconstruction `[-investmentCost, revenue_y - operatingCosts_y, ...]` built from
the engine's own operating inflow/outflow columns equals the engine's
`netCashFlow` series exactly when there is no financing and every investment
falls in year 0 (with data-model-valid depreciation fields); financing flows or
later-year capital outlays break the equivalence (see the counterexample). -/
theorem sensitivity_reconstruction_refines_engine
    (project : ProjectData) (investments : List InvestmentData)
    (products : List ProductData) (costs : List CostData) (varName : String)
    (hyear : ∀ inv ∈ investments, inv.year = 0)
    (hvalid : ∀ inv ∈ investments, 0 ≤ inv.salvageValue ∧ inv.salvageValue ≤ inv.amount
      ∧ 0 ≤ inv.depreciationRate) :
    recalculateCashFlows (applyVariation
      { revenue := ((generateCashFlows project investments products costs []).drop 1).map
          fun cf => cf.operatingInflow
        operatingCosts := ((generateCashFlows project investments products costs []).drop 1).map
          fun cf => cf.operatingOutflow
        investmentCost := (investments.map fun inv => inv.amount).sum
        discountRate := project.discountRate
        cashFlows := (generateCashFlows project investments products costs []).map
          fun cf => cf.netCashFlow }
      varName 0)
    = (generateCashFlows project investments products costs []).map
        fun cf => cf.netCashFlow := by
  rw [applyVariation_zero, recalculateCashFlows]
  simp only
  rw [generateCashFlows_drop_one_map project investments products costs []
      (fun cf => cf.operatingInflow) (fun _ _ _ => rfl),
    generateCashFlows_drop_one_map project investments products costs []
      (fun cf => cf.operatingOutflow) (fun _ _ _ => rfl),
    generateCashFlows_map_proj project investments products costs []
      (fun cf => cf.netCashFlow) (fun _ _ _ => rfl),
    List.range_succ_eq_map, List.map_cons, List.map_map, List.length_map, List.length_range]
  refine congrArg₂ List.cons ?_ ?_
  · rw [cashFlowRowAt_year_zero_net project investments products costs hyear hvalid 0]
  · refine List.map_congr_left ?_
    intro k hk
    have hkT : k < project.constructionYears + project.operationYears := List.mem_range.mp hk
    rw [getD_map_range _ _ _ hkT, getD_map_range _ _ _ hkT]
    have := cashFlowRowAt_later_net project investments products costs hyear k 0
    simp only [Function.comp_apply, Nat.succ_eq_add_one]
    rw [this]

/-- A loan-only project: no construction, one operating year, a 100-unit
zero-interest one-year loan disbursed in year 0 and repaid in year 1, discount
rate 100 percent. -/
def exampleLoanProject : ProjectData :=
  { constructionYears := 0, operationYears := 1, discountRate := 100
    inflationRate := 0, taxRate := 0, startDate := 0 }

/-- The single loan of the loan-only project. -/
def exampleLoan : FinancingData :=
  { type := "loan", amount := 100, interestRate := 0, termYears := 1
    gracePeriod := 0, disbursementYear := 0, repaymentStartYear := 1 }

/-- The `ProjectInputs` the sensitivity endpoint builds from the loan-only
project (routes/calculations.ts): operating inflow/outflow columns of the
engine run, total investment, and the engine's net cash-flow series. -/
def exampleLoanInputs : ProjectInputs :=
  { revenue := ((generateCashFlows exampleLoanProject [] [] [] [exampleLoan]).drop 1).map
      fun cf => cf.operatingInflow
    operatingCosts := ((generateCashFlows exampleLoanProject [] [] [] [exampleLoan]).drop 1).map
      fun cf => cf.operatingOutflow
    investmentCost := (([] : List InvestmentData).map fun inv => inv.amount).sum
    discountRate := exampleLoanProject.discountRate
    cashFlows := (generateCashFlows exampleLoanProject [] [] [] [exampleLoan]).map
      fun cf => cf.netCashFlow }

lemma exampleLoan_net_eval :
    (generateCashFlows exampleLoanProject [] [] [] [exampleLoan]).map
      (fun cf => cf.netCashFlow) = [100, -100] := by
  simp [generateCashFlows, cashFlowRows, cashFlowRowAt, revenueAt, operatingCostsAt,
    investmentsAt, financingInflowsAt, depreciationAt, calculateDebtService,
    debtServiceItem, calculateAmortizationSchedule, amortRows, exampleLoanProject,
    exampleLoan]

lemma exampleLoanInputs_eval :
    exampleLoanInputs =
      { revenue := [0], operatingCosts := [0], investmentCost := 0
        discountRate := 100, cashFlows := [100, -100] } := by
  rw [exampleLoanInputs, exampleLoan_net_eval]
  simp [generateCashFlows, cashFlowRows, cashFlowRowAt, revenueAt, operatingCostsAt,
    investmentsAt, financingInflowsAt, depreciationAt, calculateDebtService,
    debtServiceItem, calculateAmortizationSchedule, amortRows, exampleLoanProject,
    exampleLoan]

lemma irrLoop_zero_pair (n : ℕ) (rate : ℚ) : irrLoop [0, 0] (n + 1) rate = (rate, false) := by
  have hd : irrDerivativeAt [0, 0] rate = 0 := by
    simp [irrDerivativeAt, List.enum, List.enumFrom]
  rw [irrLoop]
  norm_num [hd]

lemma calculateIRR_zero_pair : calculateIRR [0, 0] = 10 := by
  rw [calculateIRR, show (100 : ℕ) = 99 + 1 from rfl, irrLoop_zero_pair]
  norm_num

/-- Counterexample to C3: on the loan-only project the engine's net cash flows
are `[100, -100]` (inflow of the loan, then its repayment), whose NPV at the
project's 100 percent discount rate is `100 - 100/2 = 50`; but the sensitivity
driver's reconstruction from `(revenue, operatingCosts, investmentCost)` is
`[0, 0]`, so for the pair `("revenue", 0)` it records `npv = 0` (and a
guard-tripped `irr = 10`), not the full-engine value 50. -/
theorem sensitivity_driver_ignores_financing_counterexample :
    calculateSensitivity exampleLoanInputs ["revenue"] [0]
      = [{ varName := "revenue", variation := 0, npv := 0, irr := 10 }]
    ∧ calculateNPV ((generateCashFlows exampleLoanProject [] [] [] [exampleLoan]).map
        fun cf => cf.netCashFlow) 100 = 50
    ∧ (0 : ℚ) ≠ 50 := by
  refine ⟨?_, ?_, by norm_num⟩
  · rw [exampleLoanInputs_eval]
    simp [calculateSensitivity, applyVariation, recalculateCashFlows, calculateNPV,
      List.enum, List.enumFrom, calculateIRR_zero_pair]
  · rw [exampleLoan_net_eval]
    norm_num [calculateNPV, List.enum, List.enumFrom]

/-- A concrete financing-free model for the refinement witness: one year-0
machinery investment of 50 under straight-line depreciation. -/
def refinementWitnessInvestment : InvestmentData :=
  { category := "machinery", amount := 50, year := 0, usefulLife := 5
    salvageValue := 0, depreciationMethod := .straight_line, depreciationRate := 20 }

/-- The single product of the refinement witness model. -/
def refinementWitnessProduct : ProductData :=
  { name := "widget", unitPrice := 2, priceEscalation := 0
    productionSchedule := [{ year := 1, quantity := 30 }] }

/-- The project parameters of the refinement witness model. -/
def refinementWitnessProject : ProjectData :=
  { constructionYears := 0, operationYears := 1, discountRate := 10
    inflationRate := 0, taxRate := 50, startDate := 0 }

/-- Witness for the amended C3 at the concrete financing-free model. -/
theorem sensitivity_reconstruction_refines_engine_witness :
    recalculateCashFlows (applyVariation
      { revenue := ((generateCashFlows refinementWitnessProject [refinementWitnessInvestment]
          [refinementWitnessProduct] [] []).drop 1).map fun cf => cf.operatingInflow
        operatingCosts := ((generateCashFlows refinementWitnessProject [refinementWitnessInvestment]
          [refinementWitnessProduct] [] []).drop 1).map fun cf => cf.operatingOutflow
        investmentCost := ([refinementWitnessInvestment].map fun inv => inv.amount).sum
        discountRate := refinementWitnessProject.discountRate
        cashFlows := (generateCashFlows refinementWitnessProject [refinementWitnessInvestment]
          [refinementWitnessProduct] [] []).map fun cf => cf.netCashFlow }
      "revenue" 0)
    = (generateCashFlows refinementWitnessProject [refinementWitnessInvestment]
        [refinementWitnessProduct] [] []).map fun cf => cf.netCashFlow :=
  sensitivity_reconstruction_refines_engine refinementWitnessProject
    [refinementWitnessInvestment] [refinementWitnessProduct] [] "revenue"
    (by norm_num [refinementWitnessInvestment])
    (by norm_num [refinementWitnessInvestment])
